import Mathlib

/-!
Shallow embedding of the order/inventory core of the backend_Dashboard
repository: the stock adjustment endpoint (product.controller.ts,
adjustStock), the stock-status derivation (calculateStockStatus and the
Product pre-save hook), and the order controller (createOrder,
updateOrderStatus, deleteOrder) together with the data model pieces the
claims mention (Product, InventoryMovement, Order, Transaction).

Numbers are modelled as Int (the JS code works on Number and the stock
fields can be driven below zero by unguarded `$inc` updates, so Nat would
not be faithful). Persistence is modelled as explicit state passing:
collections are association lists keyed by ids, a `findByIdAndUpdate`
with `$inc` is an entrywise map over the matching key, and a thrown
ApiError is an error value returned together with the unchanged state.
Execution is sequential: each controller body runs to completion alone.
-/

namespace Backend

/-- Stock status enumeration of the Product schema. -/
inductive StockStatus
  | in_stock
  | low_stock
  | out_of_stock
deriving DecidableEq

/-- Helper calculateStockStatus from the product helpers file:
`quantity === 0` gives out_of_stock, then `quantity <= lowStockQuantity`
gives low_stock, otherwise in_stock. -/
def calculateStockStatus (quantity : Int) (lowStockQuantity : Int) : StockStatus :=
  if quantity = 0 then .out_of_stock
  else if quantity ≤ lowStockQuantity then .low_stock
  else .in_stock

/-- Logic of the Product pre-save hook in Product.ts, which recomputes
stock_status from quantity and low_stock_quantity with the same three
branches. -/
def preSaveStockStatus (quantity : Int) (lowStockQuantity : Int) : StockStatus :=
  if quantity = 0 then .out_of_stock
  else if quantity ≤ lowStockQuantity then .low_stock
  else .in_stock

/-- Subset of the Product document relevant to the stock adjustment
endpoint. -/
structure Product where
  quantity : Int
  low_stock_quantity : Int
  stock_status : StockStatus
deriving DecidableEq

/-- Movement type enumeration of the InventoryMovement schema. -/
inductive MovementType
  | movIn
  | movOut
  | adjustment
deriving DecidableEq

/-- Subset of the InventoryMovement document created by adjustStock. -/
structure InventoryMovement where
  type : MovementType
  quantity : Int
  previous_quantity : Int
  new_quantity : Int
deriving DecidableEq

/-- Error outcomes of the adjustStock handler (each is a thrown
ApiError). -/
inductive AdjustError
  | missingFields
  | productNotFound
  | insufficientStock
deriving DecidableEq

/-- The adjustStock handler of product.controller.ts, run against the
current state `product?` of the addressed product. Mirrors the source:
validation (`!change || !type`, then non-zero), product lookup, movement
type selection (`type === 'in' || changeAmount > 0` first, then
`type === 'out' || changeAmount < 0`, else direct adjustment), the
advisory insufficiency check in the out branch, the findOneAndUpdate
applying `$inc quantity by changeAmount` and setting stock_status from
the locally computed newQuantity, and the single InventoryMovement
created with `Math.abs(changeAmount)`, the read quantity and the updated
quantity. The conditional `$gte` filter of the out branch is subsumed by
the advisory check in this sequential model. -/
def adjustStock (product? : Option Product) (change : Int) (type : String) :
    Except AdjustError (Product × InventoryMovement) :=
  if change = 0 ∨ type = "" then .error .missingFields
  else
    match product? with
    | none => .error .productNotFound
    | some product =>
      let previousQuantity := product.quantity
      if type = "in" ∨ 0 < change then
        let newQuantity := previousQuantity + |change|
        let updated : Product :=
          { product with
            quantity := previousQuantity + change
            stock_status := calculateStockStatus newQuantity product.low_stock_quantity }
        .ok (updated,
          { type := .movIn
            quantity := |change|
            previous_quantity := previousQuantity
            new_quantity := updated.quantity })
      else if type = "out" ∨ change < 0 then
        let requestedAmount := |change|
        if previousQuantity < requestedAmount then .error .insufficientStock
        else
          let newQuantity := previousQuantity - requestedAmount
          let updated : Product :=
            { product with
              quantity := previousQuantity + change
              stock_status := calculateStockStatus newQuantity product.low_stock_quantity }
          .ok (updated,
            { type := .movOut
              quantity := requestedAmount
              previous_quantity := previousQuantity
              new_quantity := updated.quantity })
      else
        let newQuantity := change
        let updated : Product :=
          { product with
            quantity := previousQuantity + change
            stock_status := calculateStockStatus newQuantity product.low_stock_quantity }
        .ok (updated,
          { type := .adjustment
            quantity := |change|
            previous_quantity := previousQuantity
            new_quantity := updated.quantity })

/-- One adjustStock call folded into a product state: a successful call
replaces the product, a failed call leaves it unchanged. -/
def applyAdjust (p : Product) (op : Int × String) : Product :=
  match adjustStock (some p) op.1 op.2 with
  | .ok (p', _) => p'
  | .error _ => p

/-- A sequence of adjustStock calls against one product. -/
def runAdjustments (p : Product) (ops : List (Int × String)) : Product :=
  ops.foldl applyAdjust p

/-! ## Order controller world

The order controller addresses the product stock field named
stockQuantity and the cumulative soldQuantity counter; both live on the
product document it updates through `Product.findByIdAndUpdate` with
`$inc`. -/

/-- Subset of the product document as read and written by the order
controller. -/
structure OrderProduct where
  name : String
  price : Int
  status : String
  stockQuantity : Int
  soldQuantity : Int
deriving DecidableEq

/-- One order line item: product reference plus name/price snapshot,
quantity and line subtotal, as pushed onto orderItems in createOrder. -/
structure OrderItem where
  productId : Nat
  name : String
  price : Int
  quantity : Int
  subtotal : Int
deriving DecidableEq

/-- Subset of the Order document relevant to the claims. -/
structure Order where
  status : String
  paymentStatus : String
  items : List OrderItem
  subtotal : Int
  totalAmount : Int
  notes : Option String
  cancelReason : Option String
deriving DecidableEq

/-- Subset of the Transaction document created on delivery. -/
structure Transaction where
  type : String
  category : String
  amount : Int
  relatedOrderId : Nat
  status : String
deriving DecidableEq

/-- The persisted collections touched by the order controller. The
movements collection belongs to the stock adjustment endpoint; it is
carried here so that the frame behaviour of the order operations on it
can be stated. -/
structure Store where
  products : List (Nat × OrderProduct)
  orders : List (Nat × Order)
  transactions : List Transaction
  movements : List InventoryMovement
deriving DecidableEq

/-- Lookup of a product by id (findById: first entry with the key). -/
def findProduct : List (Nat × OrderProduct) → Nat → Option OrderProduct
  | [], _ => none
  | (k, p) :: rest, pid => if k = pid then some p else findProduct rest pid

/-- Lookup of an order by id. -/
def findOrder : List (Nat × Order) → Nat → Option Order
  | [], _ => none
  | (k, o) :: rest, oid => if k = oid then some o else findOrder rest oid

/-- `Product.findByIdAndUpdate(pid, { $inc: { stockQuantity: delta } })`:
adds delta to the stockQuantity of every entry with the key (ids are
unique in the real store, so this is the single matching document); a
missing id is a no-op. -/
def incStockQuantity : List (Nat × OrderProduct) → Nat → Int → List (Nat × OrderProduct)
  | [], _, _ => []
  | (k, p) :: rest, pid, delta =>
    (if k = pid then (k, { p with stockQuantity := p.stockQuantity + delta }) else (k, p)) ::
      incStockQuantity rest pid delta

/-- `Product.findByIdAndUpdate(pid, { $inc: { soldQuantity: delta } })`. -/
def incSoldQuantity : List (Nat × OrderProduct) → Nat → Int → List (Nat × OrderProduct)
  | [], _, _ => []
  | (k, p) :: rest, pid, delta =>
    (if k = pid then (k, { p with soldQuantity := p.soldQuantity + delta }) else (k, p)) ::
      incSoldQuantity rest pid delta

/-- Replacement of an order by id (order.save after field mutation). -/
def saveOrder : List (Nat × Order) → Nat → Order → List (Nat × Order)
  | [], _, _ => []
  | (k, o) :: rest, oid, o' =>
    (if k = oid then (k, o') else (k, o)) :: saveOrder rest oid o'

/-- Error outcomes of the order controller handlers. -/
inductive OrderError
  | emptyItems
  | productNotFound (pid : Nat)
  | productNotAvailable (pid : Nat)
  | insufficientStock (pid : Nat)
  | orderNotFound
  | notPending
deriving DecidableEq

/-- The read-only verification loop of createOrder: for each requested
item, findById the product, reject a missing product, a product whose
status is not active, or stockQuantity below the requested quantity;
otherwise snapshot name and price, compute the line subtotal and
accumulate the order subtotal. No write happens in this loop. -/
def buildOrderItems (st : Store) : List (Nat × Int) → Except OrderError (List OrderItem × Int)
  | [] => .ok ([], 0)
  | (pid, qty) :: rest =>
    match findProduct st.products pid with
    | none => .error (.productNotFound pid)
    | some product =>
      if product.status ≠ "active" then .error (.productNotAvailable pid)
      else if product.stockQuantity < qty then .error (.insufficientStock pid)
      else
        match buildOrderItems st rest with
        | .error e => .error e
        | .ok (itemsRest, subtotalRest) =>
          .ok ({ productId := pid
                 name := product.name
                 price := product.price
                 quantity := qty
                 subtotal := product.price * qty } :: itemsRest,
               product.price * qty + subtotalRest)

/-- The unconditional stock reduction loop of createOrder: for each
requested item, `$inc stockQuantity by -quantity`. -/
def decrementStock (ps : List (Nat × OrderProduct)) : List (Nat × Int) → List (Nat × OrderProduct)
  | [] => ps
  | (pid, qty) :: rest => decrementStock (incStockQuantity ps pid (-qty)) rest

/-- The createOrder handler: reject an empty item list, run the
verification loop, then persist the order with status pending, the
computed totals (tax, shipping and discount are zero), and finally run
the stock reduction loop. A thrown error leaves the store as it was. -/
def createOrder (st : Store) (orderId : Nat) (items : List (Nat × Int)) :
    Except OrderError Order × Store :=
  if items = [] then (.error .emptyItems, st)
  else
    match buildOrderItems st items with
    | .error e => (.error e, st)
    | .ok (orderItems, subtotal) =>
      let totalAmount := subtotal + 0 + 0 - 0
      let order : Order :=
        { status := "pending"
          paymentStatus := "unpaid"
          items := orderItems
          subtotal := subtotal
          totalAmount := totalAmount
          notes := none
          cancelReason := none }
      (.ok order,
       { st with
         orders := st.orders ++ [(orderId, order)]
         products := decrementStock st.products items })

/-- The soldQuantity update loop of the delivered branch. -/
def soldIncrement (ps : List (Nat × OrderProduct)) : List OrderItem → List (Nat × OrderProduct)
  | [] => ps
  | item :: rest => soldIncrement (incSoldQuantity ps item.productId item.quantity) rest

/-- The stock return loop of the cancelled/rejected branches and of
deleteOrder: for each line item, `$inc stockQuantity by +quantity`. -/
def returnStock (ps : List (Nat × OrderProduct)) : List OrderItem → List (Nat × OrderProduct)
  | [] => ps
  | item :: rest => returnStock (incStockQuantity ps item.productId item.quantity) rest

/-- The updateOrderStatus handler: look the order up, set its status and
optional notes, then run the side-effect branches of the source in
order. The delivered branch fires only when the target status is
delivered and the old status was not delivered: it flips paymentStatus
to paid, increments soldQuantity for every line item, and inserts one
completed income/sale Transaction over the order total. The
cancelled/rejected branch fires whenever the target status is cancelled
or rejected, with no condition on the old status: it returns every line
item quantity to stock, and for rejected also sets cancelReason to the
supplied notes. Finally the mutated order document is saved. -/
def updateOrderStatus (st : Store) (oid : Nat) (status : String) (notes : Option String) :
    Except OrderError Order × Store :=
  match findOrder st.orders oid with
  | none => (.error .orderNotFound, st)
  | some order =>
    let oldStatus := order.status
    let order1 : Order :=
      { order with
        status := status
        notes := match notes with | some n => some n | none => order.notes }
    let deliveredFires := status = "delivered" ∧ oldStatus ≠ "delivered"
    let order2 := if deliveredFires then { order1 with paymentStatus := "paid" } else order1
    let st1 :=
      if deliveredFires then
        { st with
          products := soldIncrement st.products order.items
          transactions := st.transactions ++
            [{ type := "income"
               category := "sale"
               amount := order.totalAmount
               relatedOrderId := oid
               status := "completed" }] }
      else st
    let cancelFires := status = "cancelled" ∨ status = "rejected"
    let order3 :=
      if cancelFires then
        (if status = "rejected" then { order2 with cancelReason := notes } else order2)
      else order2
    let st2 :=
      if cancelFires then { st1 with products := returnStock st1.products order.items } else st1
    (.ok order3, { st2 with orders := saveOrder st2.orders oid order3 })

/-- The deleteOrder handler: only a pending order may be deleted; its
stock is returned item by item and the order document removed. -/
def deleteOrder (st : Store) (oid : Nat) : Except OrderError Unit × Store :=
  match findOrder st.orders oid with
  | none => (.error .orderNotFound, st)
  | some order =>
    if order.status ≠ "pending" then (.error .notPending, st)
    else
      (.ok (),
       { st with
         products := returnStock st.products order.items
         orders := st.orders.filter (fun e => e.1 != oid) })

/-- Sum of the requested quantities for one product id in a creation
request (several items may name the same product). -/
def itemTotal : List (Nat × Int) → Nat → Int
  | [], _ => 0
  | (pid, qty) :: rest, q => (if pid = q then qty else 0) + itemTotal rest q

/-- Sum of the line-item quantities for one product id in an order. -/
def orderItemTotal : List OrderItem → Nat → Int
  | [], _ => 0
  | item :: rest, q => (if item.productId = q then item.quantity else 0) + orderItemTotal rest q

/-! ## Helper lemmas about the store primitives -/

theorem findProduct_incStockQuantity (ps : List (Nat × OrderProduct)) (pid : Nat)
    (delta : Int) (q : Nat) :
    findProduct (incStockQuantity ps pid delta) q =
      if q = pid then
        (findProduct ps q).map (fun p => { p with stockQuantity := p.stockQuantity + delta })
      else findProduct ps q := by
  induction ps with
  | nil => rw [incStockQuantity]; cases instDecidableEqNat q pid <;> simp [findProduct]
  | cons e rest ih =>
    obtain ⟨k, p⟩ := e
    rw [incStockQuantity]
    by_cases hk : k = pid
    · rw [if_pos hk]
      by_cases hq : k = q
      · have hqp : q = pid := by rw [← hq, hk]
        simp [findProduct, hq, hqp]
      · have hqp : ¬ q = pid := fun h => hq (by rw [hk, ← h])
        simp [findProduct, hq, hqp, ih]
    · rw [if_neg hk]
      by_cases hq : k = q
      · have hqp : ¬ q = pid := fun h => hk (by rw [hq, h])
        simp [findProduct, hq, hqp]
      · simp [findProduct, hq, ih]

theorem findOrder_saveOrder (os : List (Nat × Order)) (oid : Nat) (o : Order) (q : Nat) :
    findOrder (saveOrder os oid o) q =
      if q = oid then (findOrder os q).map (fun _ => o) else findOrder os q := by
  induction os with
  | nil => rw [saveOrder]; cases instDecidableEqNat q oid <;> simp [findOrder]
  | cons e rest ih =>
    obtain ⟨k, ord⟩ := e
    rw [saveOrder]
    by_cases hk : k = oid
    · rw [if_pos hk]
      by_cases hq : k = q
      · have hqp : q = oid := by rw [← hq, hk]
        simp [findOrder, hq, hqp]
      · have hqp : ¬ q = oid := fun h => hq (by rw [hk, ← h])
        simp [findOrder, hq, hqp, ih]
    · rw [if_neg hk]
      by_cases hq : k = q
      · have hqp : ¬ q = oid := fun h => hk (by rw [hq, h])
        simp [findOrder, hq, hqp]
      · simp [findOrder, hq, ih]

theorem findProduct_decrementStock (items : List (Nat × Int)) (ps : List (Nat × OrderProduct))
    (q : Nat) :
    findProduct (decrementStock ps items) q =
      (findProduct ps q).map
        (fun p => { p with stockQuantity := p.stockQuantity - itemTotal items q }) := by
  induction items generalizing ps with
  | nil =>
    rw [decrementStock, itemTotal]
    cases findProduct ps q <;> simp
  | cons item rest ih =>
    obtain ⟨pid, qty⟩ := item
    rw [decrementStock, ih, findProduct_incStockQuantity, itemTotal]
    by_cases hq : q = pid
    · rw [if_pos hq, if_pos (by rw [hq])]
      cases findProduct ps q with
      | none => rfl
      | some p =>
        simp only [Option.map_some', Option.some.injEq, OrderProduct.mk.injEq,
          true_and, and_true]
        ring
    · rw [if_neg hq, if_neg (fun h => hq (Eq.symm h))]
      simp only [Nat.zero_add, zero_add]

theorem findProduct_returnStock (items : List OrderItem) (ps : List (Nat × OrderProduct))
    (q : Nat) :
    findProduct (returnStock ps items) q =
      (findProduct ps q).map
        (fun p => { p with stockQuantity := p.stockQuantity + orderItemTotal items q }) := by
  induction items generalizing ps with
  | nil =>
    rw [returnStock, orderItemTotal]
    cases findProduct ps q <;> simp
  | cons item rest ih =>
    rw [returnStock, ih, findProduct_incStockQuantity, orderItemTotal]
    by_cases hq : q = item.productId
    · rw [if_pos hq, if_pos (by rw [hq])]
      cases findProduct ps q with
      | none => rfl
      | some p =>
        simp only [Option.map_some', Option.some.injEq, OrderProduct.mk.injEq,
          true_and, and_true]
        ring
    · rw [if_neg hq, if_neg (fun h => hq (Eq.symm h))]
      simp only [Nat.zero_add, zero_add]

/-! ## Claims about the stock adjustment endpoint -/

/-- Claim C1. The claim states that over every sequence of adjustStock
operations the quantity never goes negative and stock_status always
equals calculateStockStatus of the current quantity and threshold right
after each successful adjustment. The code violates both parts: a call
with type in and a negative change applies the negative `$inc` without
any guard while computing the stored status from
`previousQuantity + Math.abs(change)`. Starting from quantity 3 and
threshold 0, the single-operation sequence [change -5, type in] succeeds
and leaves quantity -2 with stored status in_stock, although the
recomputed status of quantity -2 is low_stock. -/
theorem adjustStock_negative_quantity_bug :
    runAdjustments ⟨3, 0, .in_stock⟩ [((-5 : Int), "in")] =
      { quantity := -2, low_stock_quantity := 0, stock_status := .in_stock } ∧
    adjustStock (some ⟨3, 0, .in_stock⟩) (-5) "in" =
      .ok (⟨-2, 0, .in_stock⟩, ⟨.movIn, 5, 3, -2⟩) ∧
    ((-2 : Int) < 0) ∧
    calculateStockStatus (-2) 0 ≠ .in_stock :=
  ⟨rfl, rfl, by decide, by decide⟩

/-- Claim C2. The claim states that every adjustStock decrease (negative
delta) against a stored quantity below the absolute delta fails with the
insufficient-stock error and mutates nothing. The code checks
sufficiency only in the out branch: a negative change combined with type
in lands in the in branch, succeeds, records a movement, and drives the
quantity from 2 to -5. -/
theorem adjustStock_bypasses_insufficient_check :
    adjustStock (some ⟨2, 0, .in_stock⟩) (-7) "in" =
      .ok (⟨-5, 0, .in_stock⟩, ⟨.movIn, 7, 2, -5⟩) ∧
    adjustStock (some ⟨2, 0, .in_stock⟩) (-7) "in" ≠ .error .insufficientStock := by
  refine ⟨rfl, ?_⟩
  intro hcontra
  rw [show adjustStock (some ⟨2, 0, .in_stock⟩) (-7) "in" =
      .ok (⟨-5, 0, .in_stock⟩, ⟨.movIn, 7, 2, -5⟩) from rfl] at hcontra
  exact Except.noConfusion hcontra

/-- Claim C4: every successful adjustStock call creates exactly one
InventoryMovement (the single record returned), whose previous_quantity
and new_quantity are the quantity before and after the adjustment and
whose difference new_quantity - previous_quantity is the signed applied
delta. -/
theorem adjustStock_movement_delta (p : Product) (change : Int) (type : String)
    (p' : Product) (m : InventoryMovement)
    (h : adjustStock (some p) change type = .ok (p', m)) :
    m.previous_quantity = p.quantity ∧ m.new_quantity = p'.quantity ∧
    m.new_quantity - m.previous_quantity = change := by
  unfold adjustStock at h
  split at h
  · exact Except.noConfusion h
  · dsimp only at h
    split at h
    · simp only [Except.ok.injEq, Prod.mk.injEq] at h
      obtain ⟨hp, hm⟩ := h
      subst hp; subst hm
      refine ⟨rfl, rfl, by ring⟩
    · split at h
      · split at h
        · exact Except.noConfusion h
        · simp only [Except.ok.injEq, Prod.mk.injEq] at h
          obtain ⟨hp, hm⟩ := h
          subst hp; subst hm
          refine ⟨rfl, rfl, by ring⟩
      · simp only [Except.ok.injEq, Prod.mk.injEq] at h
        obtain ⟨hp, hm⟩ := h
        subst hp; subst hm
        refine ⟨rfl, rfl, by ring⟩

/-- Witness for claim C4 at quantity 5, change 3, type in. -/
theorem adjustStock_movement_delta_witness :
    (⟨.movIn, 3, 5, 8⟩ : InventoryMovement).previous_quantity =
        (⟨5, 2, .in_stock⟩ : Product).quantity ∧
    (⟨.movIn, 3, 5, 8⟩ : InventoryMovement).new_quantity =
        (⟨8, 2, .in_stock⟩ : Product).quantity ∧
    (⟨.movIn, 3, 5, 8⟩ : InventoryMovement).new_quantity -
        (⟨.movIn, 3, 5, 8⟩ : InventoryMovement).previous_quantity = 3 :=
  adjustStock_movement_delta ⟨5, 2, .in_stock⟩ 3 "in" ⟨8, 2, .in_stock⟩ ⟨.movIn, 3, 5, 8⟩ rfl

/-- Claim C5: the stock-status derivation maps quantity 0 to
out_of_stock regardless of the threshold, any other quantity at or below
the threshold to low_stock (equality counts as low_stock), and anything
greater to in_stock; the pre-save hook of the Product schema computes
the same function. -/
theorem calculateStockStatus_spec (q low : Int) :
    (q = 0 → calculateStockStatus q low = .out_of_stock) ∧
    (q ≠ 0 → q ≤ low → calculateStockStatus q low = .low_stock) ∧
    (q ≠ 0 → low < q → calculateStockStatus q low = .in_stock) ∧
    preSaveStockStatus q low = calculateStockStatus q low := by
  unfold calculateStockStatus preSaveStockStatus
  refine ⟨fun h => by simp [h], fun h1 h2 => by simp [h1, h2], fun h1 h2 => ?_, rfl⟩
  rw [if_neg h1, if_neg (by omega)]

/-- Witness for claim C5 at the tie-break boundary quantity 10 with
threshold 10. -/
theorem calculateStockStatus_spec_witness : calculateStockStatus 10 10 = .low_stock :=
  (calculateStockStatus_spec 10 10).2.1 (by decide) (by decide)

/-- Claim C10: every adjustStock request that passes validation (a
non-empty type and a non-zero change) and succeeds records movement type
in or out; the direct-adjustment else branch is unreachable because a
non-zero change satisfies the in condition or the out condition. -/
theorem adjustStock_movement_type_in_or_out (product? : Option Product) (change : Int)
    (type : String) (hchange : change ≠ 0) (p' : Product) (m : InventoryMovement)
    (h : adjustStock product? change type = .ok (p', m)) :
    m.type = .movIn ∨ m.type = .movOut := by
  unfold adjustStock at h
  split at h
  · exact Except.noConfusion h
  · cases product? with
    | none => exact Except.noConfusion h
    | some product =>
      dsimp only at h
      split at h
      · simp only [Except.ok.injEq, Prod.mk.injEq] at h
        exact Or.inl (h.2 ▸ rfl)
      · split at h
        · split at h
          · exact Except.noConfusion h
          · simp only [Except.ok.injEq, Prod.mk.injEq] at h
            exact Or.inr (h.2 ▸ rfl)
        · rename_i hn1 hn2
          have h1 : ¬ 0 < change := fun hc => hn1 (Or.inr hc)
          have h2 : ¬ change < 0 := fun hc => hn2 (Or.inr hc)
          exact absurd (by omega) hchange

/-- Witness for claim C10 at quantity 4, change -1, type out. -/
theorem adjustStock_movement_type_in_or_out_witness :
    (⟨.movOut, 1, 4, 3⟩ : InventoryMovement).type = .movIn ∨
    (⟨.movOut, 1, 4, 3⟩ : InventoryMovement).type = .movOut :=
  adjustStock_movement_type_in_or_out (some ⟨4, 1, .in_stock⟩) (-1) "out" (by decide)
    ⟨3, 1, .in_stock⟩ ⟨.movOut, 1, 4, 3⟩ (by rfl)

/-! ## Claims about the order controller -/

/-- Claim C3: order creation is all-or-nothing. Every failing creation
returns the store unchanged (no order persisted, every quantity as
before the attempt, items before the failing one included, because the
verification loop performs no write); every succeeding creation appends
exactly the new order and decrements each product by the total quantity
requested for it. -/
theorem createOrder_all_or_nothing (st : Store) (orderId : Nat) (items : List (Nat × Int)) :
    (∀ e st', createOrder st orderId items = (.error e, st') → st' = st) ∧
    (∀ o st', createOrder st orderId items = (.ok o, st') →
      st'.orders = st.orders ++ [(orderId, o)] ∧
      ∀ pid, findProduct st'.products pid =
        (findProduct st.products pid).map
          (fun p => { p with stockQuantity := p.stockQuantity - itemTotal items pid })) := by
  constructor
  · intro e st' h
    unfold createOrder at h
    split at h
    · simp only [Prod.mk.injEq] at h
      exact h.2.symm
    · split at h
      · simp only [Prod.mk.injEq] at h
        exact h.2.symm
      · simp only [Prod.mk.injEq] at h
        exact Except.noConfusion h.1
  · intro o st' h
    unfold createOrder at h
    split at h
    · simp only [Prod.mk.injEq] at h
      exact Except.noConfusion h.1
    · split at h
      · simp only [Prod.mk.injEq] at h
        exact Except.noConfusion h.1
      · simp only [Prod.mk.injEq, Except.ok.injEq] at h
        obtain ⟨ho, hst⟩ := h
        subst hst
        subst ho
        refine ⟨rfl, fun pid => ?_⟩
        exact findProduct_decrementStock items st.products pid

/-- Witness for claim C3: one product at stock 5, a one-item order for
quantity 2 appends the order and leaves stock 3. -/
theorem createOrder_all_or_nothing_witness :
    (⟨[(1, ⟨"A", 10, "active", 3, 0⟩)],
      [(7, ⟨"pending", "unpaid", [⟨1, "A", 10, 2, 20⟩], 20, 20, none, none⟩)],
      [], []⟩ : Store).orders =
      (⟨[(1, ⟨"A", 10, "active", 5, 0⟩)], [], [], []⟩ : Store).orders ++
        [(7, ⟨"pending", "unpaid", [⟨1, "A", 10, 2, 20⟩], 20, 20, none, none⟩)] :=
  ((createOrder_all_or_nothing ⟨[(1, ⟨"A", 10, "active", 5, 0⟩)], [], [], []⟩ 7 [(1, 2)]).2
      ⟨"pending", "unpaid", [⟨1, "A", 10, 2, 20⟩], 20, 20, none, none⟩
      ⟨[(1, ⟨"A", 10, "active", 3, 0⟩)],
       [(7, ⟨"pending", "unpaid", [⟨1, "A", 10, 2, 20⟩], 20, 20, none, none⟩)],
       [], []⟩
      (by rfl)).1

/-- Claim C6: a status transition into delivered from a non-delivered
status flips paymentStatus to paid (on the returned and the persisted
order) and appends exactly one completed income/sale Transaction whose
amount is the order total, linked to the order. -/
theorem updateOrderStatus_delivered_effects (st : Store) (oid : Nat) (order : Order)
    (notes : Option String) (r : Except OrderError Order) (st' : Store)
    (horder : findOrder st.orders oid = some order)
    (hold : order.status ≠ "delivered")
    (h : updateOrderStatus st oid "delivered" notes = (r, st')) :
    (∃ o', r = .ok o' ∧ o'.paymentStatus = "paid" ∧ findOrder st'.orders oid = some o') ∧
    st'.transactions = st.transactions ++
      [{ type := "income", category := "sale", amount := order.totalAmount,
         relatedOrderId := oid, status := "completed" }] := by
  unfold updateOrderStatus at h
  rw [horder] at h
  dsimp only at h
  have hdel : ("delivered" : String) = "delivered" ∧ order.status ≠ "delivered" := ⟨rfl, hold⟩
  have hcan : ¬(("delivered" : String) = "cancelled" ∨ ("delivered" : String) = "rejected") := by
    decide
  rw [if_pos hdel, if_pos hdel, if_neg hcan, if_neg hcan] at h
  simp only [Prod.mk.injEq] at h
  obtain ⟨hr, hst⟩ := h
  subst hst
  refine ⟨⟨_, hr.symm, rfl, ?_⟩, rfl⟩
  dsimp only
  rw [findOrder_saveOrder, if_pos rfl, horder]
  rfl

/-- Witness for claim C6: delivering a pending order with total 24
appends the income/sale transaction of amount 24. -/
theorem updateOrderStatus_delivered_effects_witness :
    (⟨[], [(2, ⟨"delivered", "paid", [], 24, 24, none, none⟩)],
      [⟨"income", "sale", 24, 2, "completed"⟩], []⟩ : Store).transactions =
      (⟨[], [(2, ⟨"pending", "unpaid", [], 24, 24, none, none⟩)], [], []⟩ : Store).transactions
        ++ [⟨"income", "sale", 24, 2, "completed"⟩] :=
  (updateOrderStatus_delivered_effects
      ⟨[], [(2, ⟨"pending", "unpaid", [], 24, 24, none, none⟩)], [], []⟩ 2
      ⟨"pending", "unpaid", [], 24, 24, none, none⟩ none
      (.ok ⟨"delivered", "paid", [], 24, 24, none, none⟩)
      ⟨[], [(2, ⟨"delivered", "paid", [], 24, 24, none, none⟩)],
       [⟨"income", "sale", 24, 2, "completed"⟩], []⟩
      (by rfl) (by decide) (by rfl)).2

/-- Claim C7: a status transition into cancelled or rejected from a
non-delivered status returns every line item quantity to the product
stock (each product gains the total quantity its items carried), and for
rejected additionally sets cancelReason to the supplied notes. -/
theorem updateOrderStatus_cancel_returns_stock (st : Store) (oid : Nat) (order : Order)
    (status : String) (notes : Option String) (r : Except OrderError Order) (st' : Store)
    (horder : findOrder st.orders oid = some order)
    (hold : order.status ≠ "delivered")
    (hstatus : status = "cancelled" ∨ status = "rejected")
    (h : updateOrderStatus st oid status notes = (r, st')) :
    (∀ pid, findProduct st'.products pid =
      (findProduct st.products pid).map
        (fun p => { p with stockQuantity := p.stockQuantity + orderItemTotal order.items pid })) ∧
    (status = "rejected" → ∃ o', r = .ok o' ∧ o'.cancelReason = notes) := by
  unfold updateOrderStatus at h
  rw [horder] at h
  dsimp only at h
  cases hstatus with
  | inl hc =>
    subst hc
    have hdel : ¬(("cancelled" : String) = "delivered" ∧ order.status ≠ "delivered") :=
      fun hand => absurd hand.1 (by decide)
    have hcan : ("cancelled" : String) = "cancelled" ∨ ("cancelled" : String) = "rejected" :=
      Or.inl rfl
    have hrej : ¬(("cancelled" : String) = "rejected") := by decide
    rw [if_neg hdel, if_neg hdel, if_pos hcan, if_pos hcan, if_neg hrej] at h
    simp only [Prod.mk.injEq] at h
    obtain ⟨hr, hst⟩ := h
    subst hst
    refine ⟨fun pid => ?_, fun hh => absurd hh (by decide)⟩
    exact findProduct_returnStock order.items st.products pid
  | inr hc =>
    subst hc
    have hdel : ¬(("rejected" : String) = "delivered" ∧ order.status ≠ "delivered") :=
      fun hand => absurd hand.1 (by decide)
    have hcan : ("rejected" : String) = "cancelled" ∨ ("rejected" : String) = "rejected" :=
      Or.inr rfl
    rw [if_neg hdel, if_neg hdel, if_pos hcan, if_pos hcan,
      if_pos (rfl : ("rejected" : String) = "rejected")] at h
    simp only [Prod.mk.injEq] at h
    obtain ⟨hr, hst⟩ := h
    subst hst
    refine ⟨fun pid => ?_, fun _ => ⟨_, hr.symm, rfl⟩⟩
    exact findProduct_returnStock order.items st.products pid

/-- Witness for claim C7: rejecting a pending one-item order for
quantity 4 raises the product stock from 1 to 5. -/
theorem updateOrderStatus_cancel_returns_stock_witness :
    findProduct
        (⟨[(9, ⟨"P", 2, "active", 5, 0⟩)],
          [(5, ⟨"rejected", "unpaid", [⟨9, "P", 2, 4, 8⟩], 8, 8, some "damaged",
            some "damaged"⟩)], [], []⟩ : Store).products 9 =
      (findProduct [(9, ⟨"P", 2, "active", 1, 0⟩)] 9).map
        (fun p =>
          { p with stockQuantity :=
              p.stockQuantity + orderItemTotal [⟨9, "P", 2, 4, 8⟩] 9 }) :=
  (updateOrderStatus_cancel_returns_stock
      ⟨[(9, ⟨"P", 2, "active", 1, 0⟩)],
       [(5, ⟨"pending", "unpaid", [⟨9, "P", 2, 4, 8⟩], 8, 8, none, none⟩)], [], []⟩ 5
      ⟨"pending", "unpaid", [⟨9, "P", 2, 4, 8⟩], 8, 8, none, none⟩ "rejected" (some "damaged")
      (.ok ⟨"rejected", "unpaid", [⟨9, "P", 2, 4, 8⟩], 8, 8, some "damaged", some "damaged"⟩)
      ⟨[(9, ⟨"P", 2, "active", 5, 0⟩)],
       [(5, ⟨"rejected", "unpaid", [⟨9, "P", 2, 4, 8⟩], 8, 8, some "damaged",
         some "damaged"⟩)], [], []⟩
      (by rfl) (by decide) (Or.inr rfl) (by rfl)).1 9

/-- Claim C9 as stated is false for delivered: the delivered side
effects are guarded by the old status, so re-applying delivered to an
already delivered order posts no new transaction and changes no product
counter, contradicting the claim that every side-effecting target
status re-triggers on repetition. -/
theorem updateOrderStatus_delivered_no_retrigger :
    (updateOrderStatus
        ⟨[(3, ⟨"C", 5, "active", 9, 4⟩)],
         [(8, ⟨"delivered", "paid", [⟨3, "C", 5, 2, 10⟩], 10, 10, none, none⟩)], [], []⟩
        8 "delivered" none).2.transactions = [] ∧
    findProduct
        (updateOrderStatus
            ⟨[(3, ⟨"C", 5, "active", 9, 4⟩)],
             [(8, ⟨"delivered", "paid", [⟨3, "C", 5, 2, 10⟩], 10, 10, none, none⟩)], [], []⟩
            8 "delivered" none).2.products 3 = some ⟨"C", 5, "active", 9, 4⟩ := by
  refine ⟨?_, ?_⟩ <;> rfl

/-- Claim C9 amended: the cancelled and rejected side effects are keyed
on the target status alone and re-trigger on repeated application (stock
is re-incremented with no check of the old status), while the delivered
side effects are guarded by old status not delivered and do not
re-trigger. -/
theorem updateOrderStatus_side_effects_keyed_on_target (st : Store) (oid : Nat) (order : Order)
    (status : String) (notes : Option String) (r : Except OrderError Order) (st' : Store)
    (horder : findOrder st.orders oid = some order)
    (h : updateOrderStatus st oid status notes = (r, st')) :
    (status = "cancelled" ∨ status = "rejected" →
      ∀ pid, findProduct st'.products pid =
        (findProduct st.products pid).map
          (fun p => { p with stockQuantity := p.stockQuantity + orderItemTotal order.items pid })) ∧
    (status = "delivered" → order.status = "delivered" →
      st'.transactions = st.transactions ∧ st'.products = st.products) := by
  unfold updateOrderStatus at h
  rw [horder] at h
  dsimp only at h
  constructor
  · intro hstatus pid
    cases hstatus with
    | inl hc =>
      subst hc
      have hdel : ¬(("cancelled" : String) = "delivered" ∧ order.status ≠ "delivered") :=
        fun hand => absurd hand.1 (by decide)
      have hcan : ("cancelled" : String) = "cancelled" ∨ ("cancelled" : String) = "rejected" :=
        Or.inl rfl
      have hrej : ¬(("cancelled" : String) = "rejected") := by decide
      rw [if_neg hdel, if_neg hdel, if_pos hcan, if_pos hcan, if_neg hrej] at h
      simp only [Prod.mk.injEq] at h
      obtain ⟨hr, hst⟩ := h
      subst hst
      exact findProduct_returnStock order.items st.products pid
    | inr hc =>
      subst hc
      have hdel : ¬(("rejected" : String) = "delivered" ∧ order.status ≠ "delivered") :=
        fun hand => absurd hand.1 (by decide)
      have hcan : ("rejected" : String) = "cancelled" ∨ ("rejected" : String) = "rejected" :=
        Or.inr rfl
      rw [if_neg hdel, if_neg hdel, if_pos hcan, if_pos hcan,
        if_pos (rfl : ("rejected" : String) = "rejected")] at h
      simp only [Prod.mk.injEq] at h
      obtain ⟨hr, hst⟩ := h
      subst hst
      exact findProduct_returnStock order.items st.products pid
  · intro hstatus holddel
    subst hstatus
    have hdel : ¬(("delivered" : String) = "delivered" ∧ order.status ≠ "delivered") :=
      fun hand => hand.2 holddel
    have hcan : ¬(("delivered" : String) = "cancelled" ∨ ("delivered" : String) = "rejected") := by
      decide
    rw [if_neg hdel, if_neg hdel, if_neg hcan, if_neg hcan] at h
    simp only [Prod.mk.injEq] at h
    obtain ⟨hr, hst⟩ := h
    subst hst
    exact ⟨rfl, rfl⟩

/-- Witness for claim C9 amended: re-cancelling an already cancelled
order raises the product stock again, from 10 to 15. -/
theorem updateOrderStatus_side_effects_keyed_on_target_witness :
    findProduct
        (⟨[(6, ⟨"Q", 3, "active", 15, 0⟩)],
          [(4, ⟨"cancelled", "unpaid", [⟨6, "Q", 3, 5, 15⟩], 15, 15, none, none⟩)],
          [], []⟩ : Store).products 6 =
      (findProduct [(6, ⟨"Q", 3, "active", 10, 0⟩)] 6).map
        (fun p =>
          { p with stockQuantity :=
              p.stockQuantity + orderItemTotal [⟨6, "Q", 3, 5, 15⟩] 6 }) :=
  (updateOrderStatus_side_effects_keyed_on_target
      ⟨[(6, ⟨"Q", 3, "active", 10, 0⟩)],
       [(4, ⟨"cancelled", "unpaid", [⟨6, "Q", 3, 5, 15⟩], 15, 15, none, none⟩)], [], []⟩ 4
      ⟨"cancelled", "unpaid", [⟨6, "Q", 3, 5, 15⟩], 15, 15, none, none⟩ "cancelled" none
      (.ok ⟨"cancelled", "unpaid", [⟨6, "Q", 3, 5, 15⟩], 15, 15, none, none⟩)
      ⟨[(6, ⟨"Q", 3, "active", 15, 0⟩)],
       [(4, ⟨"cancelled", "unpaid", [⟨6, "Q", 3, 5, 15⟩], 15, 15, none, none⟩)], [], []⟩
      (by rfl) (by rfl)).1 (Or.inl rfl) 6

/-- Claim C8 as stated is false: the order operations write the product
stock field directly through findByIdAndUpdate `$inc`, not through the
gateway conditional path. Creating an order with two items of quantity 3
against stock 5 passes the advisory per-item checks, succeeds, drives
the stock to -1 and records no InventoryMovement, while the gateway
path refuses the equivalent decrease of 6 against stock 5 with the
insufficient-stock error. -/
theorem createOrder_direct_write_bypasses_gateway :
    (createOrder ⟨[(4, ⟨"D", 3, "active", 5, 0⟩)], [], [], []⟩ 1 [(4, 3), (4, 3)]).1 =
      .ok ⟨"pending", "unpaid", [⟨4, "D", 3, 3, 9⟩, ⟨4, "D", 3, 3, 9⟩], 18, 18, none, none⟩ ∧
    findProduct
        (createOrder ⟨[(4, ⟨"D", 3, "active", 5, 0⟩)], [], [], []⟩ 1
          [(4, 3), (4, 3)]).2.products 4 = some ⟨"D", 3, "active", -1, 0⟩ ∧
    (createOrder ⟨[(4, ⟨"D", 3, "active", 5, 0⟩)], [], [], []⟩ 1
        [(4, 3), (4, 3)]).2.movements = [] ∧
    adjustStock (some ⟨5, 0, .in_stock⟩) (-6) "out" = .error .insufficientStock := by
  refine ⟨?_, ?_, ?_, ?_⟩ <;> rfl

/-- Claim C8 amended: the stock writes of order creation, of the
cancelled/rejected return and of order deletion happen outside the
Stock Adjustment Gateway: none of these operations ever records an
InventoryMovement, for any input, while every successful gateway
adjustment produces one. -/
theorem order_operations_record_no_movement (st : Store) (orderId oid1 oid2 : Nat)
    (items : List (Nat × Int)) (status : String) (notes : Option String) :
    (createOrder st orderId items).2.movements = st.movements ∧
    (updateOrderStatus st oid1 status notes).2.movements = st.movements ∧
    (deleteOrder st oid2).2.movements = st.movements := by
  refine ⟨?_, ?_, ?_⟩
  · unfold createOrder
    split
    · rfl
    · split <;> rfl
  · unfold updateOrderStatus
    cases hfo : findOrder st.orders oid1 with
    | none => rfl
    | some order =>
      dsimp only
      split <;> split <;> rfl
  · unfold deleteOrder
    cases hfo : findOrder st.orders oid2 with
    | none => rfl
    | some order =>
      dsimp only
      split <;> rfl

end Backend
